import Mathlib

/-!
Shallow embedding of the wgpu-raytracing repository
(src/src/renderer.rs and src/src/main.rs).

The renderer owns a wgpu device plus five compute pipelines compiled at
construction (`RaytracingRenderer::new`).  The render operation
(`RaytracingRenderer::porcodio`) creates two buffers of size
`width * height * size_of::<[f32; 4]>()` (u64 arithmetic), recompiles the
ray-generation shader, builds a bind group and a fresh compute pipeline,
dispatches a hardcoded `(256, 256, 64)` workgroup grid, copies the storage
buffer into a MAP_READ buffer, submits, requests an asynchronous map, polls,
and then either copies the whole mapped range out, unmaps and returns the
bytes, or panics with the message "Could not map buffer".

The GPU itself is opaque: it is modelled by a `Device` record carrying the
kernel's effect on the storage buffer (an arbitrary byte production of the
buffer's size, possibly device-state dependent) and the result delivered to
the async map callback.  The host-side control flow of `porcodio` is
translated step by step, and the sequence of device-facing calls it makes is
recorded as a trace of events so that ordering properties (map before read,
read before unmap, unmap before return) are provable.

Machine integers: `width` and `height` are Rust `u64` values, modelled as
naturals below `2 ^ 64`; the size multiplication wraps modulo `2 ^ 64`
(release-mode Rust semantics for overflow).
-/

namespace Raytracing

/-- Modulus of Rust u64 arithmetic. -/
def U64 : Nat := 2 ^ 64

/-- Rust expression `std::mem::size_of::<[f32; 4]>() as u64`. -/
def sizeOfF32x4 : Nat := 16

/-- Wrapping u64 multiplication (`a * b` on u64, release semantics). -/
def mulU64 (a b : Nat) : Nat := a * b % U64

/-- The buffer-size expression of `porcodio`:
`width * height * std::mem::size_of::<[f32; 4]>() as u64` (left associated,
u64 wrapping arithmetic). -/
def bufferSize (width height : Nat) : Nat :=
  mulU64 (mulU64 width height) sizeOfF32x4

/-- The five raytracing kernel stages of renderer.rs. -/
inductive Stage where
  | gen
  | chit
  | ahit
  | miss
  | intersect
deriving DecidableEq, Repr

/-- A compute pipeline handle: a device-assigned identity plus the kernel
stage whose shader module it was created from. -/
structure Pipeline where
  id : Nat
  stage : Stage
deriving DecidableEq, Repr

/-- Usage flags of the two buffers `porcodio` creates. -/
inductive BufUsage where
  | storageCopySrc
  | mapReadCopyDst
deriving DecidableEq, Repr

/-- Device-facing calls made by the host code, in program order.  One trace
entry per wgpu API call that `new` or `porcodio` performs. -/
inductive Ev where
  | createBuffer (size : Nat) (usage : BufUsage)
  | createShaderModule (stage : Stage)
  | createBindGroupLayout
  | createBindGroup
  | createPipelineLayout
  | createComputePipeline (p : Pipeline)
  | createCommandEncoder
  | beginComputePass
  | setBindGroup (slot : Nat)
  | setPipeline (p : Pipeline)
  | dispatchWorkgroups (x y z : Nat)
  | copyBufferToBuffer (size : Nat)
  | submit
  | mapAsyncRequest
  | poll
  | mapSignal (ok : Bool)
  | readMapped (bytes : List Nat)
  | unmap
deriving DecidableEq, Repr

/-- The renderer struct: the five pipelines compiled at construction
(device, queue, instance and adapter handles are opaque and carried by the
`Device` model instead). -/
structure RaytracingRenderer where
  ray_gen_pipeline : Pipeline
  ray_chit_pipeline : Pipeline
  ray_ahit_pipeline : Pipeline
  ray_miss_pipeline : Pipeline
  ray_intersect_pipeline : Pipeline
deriving DecidableEq, Repr

/-- Translation of `RaytracingRenderer::new`: compiles the five shader
modules, then creates the five compute pipelines (device ids 0..4, in
program order).  Returns the renderer and the trace of device calls. -/
def newRenderer : RaytracingRenderer × List Ev :=
  (⟨⟨0, .gen⟩, ⟨1, .chit⟩, ⟨2, .ahit⟩, ⟨3, .miss⟩, ⟨4, .intersect⟩⟩,
   [.createShaderModule .gen,
    .createShaderModule .chit,
    .createShaderModule .ahit,
    .createShaderModule .miss,
    .createShaderModule .intersect,
    .createComputePipeline ⟨0, .gen⟩,
    .createComputePipeline ⟨1, .chit⟩,
    .createComputePipeline ⟨2, .ahit⟩,
    .createComputePipeline ⟨3, .miss⟩,
    .createComputePipeline ⟨4, .intersect⟩])

/-- Abstract model of the GPU device as seen by `porcodio`.  `σ` is the
hidden device state.  `kernelWrite s n` is the content of the size-`n`
storage buffer after the submitted dispatch has run the (opaque)
ray-generation kernel over it in state `s`; wgpu guarantees the buffer keeps
its size, hence `kernelWrite_length`.  `mapResult s` is the value the async
map callback sends through the oneshot channel: `some true` for `Ok(())`,
`some false` for a mapping error, `none` for a dropped sender. -/
structure Device (σ : Type) where
  kernelWrite : σ → Nat → List Nat
  kernelWrite_length : ∀ s n, (kernelWrite s n).length = n
  kernelStep : σ → σ
  mapResult : σ → Option Bool

/-- Possible panic messages of `porcodio` (Rust `panic!`). -/
inductive PanicMsg where
  | couldNotMapBuffer
deriving DecidableEq, Repr

/-- Result of one `porcodio` call: either the returned `Vec<u8>` or a panic.
The Rust signature returns `Vec<u8>`; there is no error-value variant. -/
inductive Outcome where
  | ok (bytes : List Nat)
  | panic (msg : PanicMsg)
deriving DecidableEq, Repr

/-- Bytes carried by a successful outcome, `none` on a panic. -/
def Outcome.bytes? : Outcome → Option (List Nat)
  | .ok bytes => some bytes
  | .panic _ => none

/-- Device calls `porcodio` performs before the async map outcome is known,
in source order: create the STORAGE|COPY_SRC buffer, create the
MAP_READ|COPY_DST buffer, recompile the ray-generation shader, create bind
group layout, bind group, pipeline layout and a fresh compute pipeline
(device id 5), record the compute pass (set_bind_group, set_pipeline,
dispatch_workgroups(256, 256, 64)), append the buffer-to-buffer copy,
submit, request the async map, poll the device. -/
def porcodioSetup (size : Nat) : List Ev :=
  [.createBuffer size .storageCopySrc,
   .createBuffer size .mapReadCopyDst,
   .createShaderModule .gen,
   .createBindGroupLayout,
   .createBindGroup,
   .createPipelineLayout,
   .createComputePipeline ⟨5, .gen⟩,
   .createCommandEncoder,
   .beginComputePass,
   .setBindGroup 0,
   .setPipeline ⟨5, .gen⟩,
   .dispatchWorkgroups 256 256 64,
   .copyBufferToBuffer size,
   .submit,
   .mapAsyncRequest,
   .poll]

/-- Translation of `RaytracingRenderer::porcodio(width, height)`.  Returns
the outcome (returned bytes or panic), the trace of device calls, and the
device state after the dispatch.  On `some true` (the `Some(Ok(()))` branch)
the whole mapped range is copied to an owned vector, the mapping is dropped,
the buffer unmapped and the vector returned; on any other received value the
code panics with "Could not map buffer". -/
def porcodio {σ : Type} (dev : Device σ) (s : σ) (width height : Nat) :
    Outcome × List Ev × σ :=
  let size := bufferSize width height
  let written := dev.kernelWrite s size
  let s2 := dev.kernelStep s
  match dev.mapResult s with
  | some true =>
      (.ok written,
       porcodioSetup size ++ [.mapSignal true, .readMapped written, .unmap],
       s2)
  | some false =>
      (.panic .couldNotMapBuffer,
       porcodioSetup size ++ [.mapSignal false],
       s2)
  | none =>
      (.panic .couldNotMapBuffer, porcodioSetup size, s2)

/-- Pipelines bound with `set_pipeline` in a trace, in order. -/
def boundPipelines (tr : List Ev) : List Pipeline :=
  tr.filterMap fun e =>
    match e with
    | .setPipeline p => some p
    | _ => none

/-- Workgroup-count triples passed to `dispatch_workgroups` in a trace. -/
def dispatches (tr : List Ev) : List (Nat × Nat × Nat) :=
  tr.filterMap fun e =>
    match e with
    | .dispatchWorkgroups x y z => some (x, y, z)
    | _ => none

/-- Shader stages for which `create_shader_module` is called in a trace. -/
def compiledShaders (tr : List Ev) : List Stage :=
  tr.filterMap fun e =>
    match e with
    | .createShaderModule st => some st
    | _ => none

/-- Pipelines for which `create_compute_pipeline` is called in a trace. -/
def createdPipelines (tr : List Ev) : List Pipeline :=
  tr.filterMap fun e =>
    match e with
    | .createComputePipeline p => some p
    | _ => none

/-- A deterministic stateless device whose kernel zeroes the buffer and
whose map request always succeeds; used to evaluate the model at concrete
inputs. -/
def zeroKernel : Device Unit where
  kernelWrite := fun _ n => List.replicate n 0
  kernelWrite_length := fun _ n => List.length_replicate n 0
  kernelStep := id
  mapResult := fun _ => some true

/-- A device whose async map request reports failure (device lost). -/
def failDev : Device Unit where
  kernelWrite := fun _ n => List.replicate n 0
  kernelWrite_length := fun _ n => List.length_replicate n 0
  kernelStep := id
  mapResult := fun _ => some false

/-!
Pixel decoder of main.rs: `raw_bytes.chunks(16)` then
`<[f32; 4]>::read_from(chunk).unwrap()` then per-channel
`(color[i] * 255.0) as u8`, collected into `image_pixels`; the image is
filled with `image_pixels[(y * 256 + x) as usize]` (the program's dimension
is 256).  Little-endian IEEE-754 binary32 interpretation of each 4-byte
group, with the float values represented exactly as rationals (the channel
values this program's claims evaluate, 0.0 and 1.0, and their products with
255.0 are exactly representable, so exact rational arithmetic agrees with
f32 arithmetic on them).
-/

/-- Rust `slice::chunks(16)`: splits into consecutive chunks of 16 bytes,
the last chunk possibly shorter. -/
def chunks16 : List Nat → List (List Nat)
  | [] => []
  | b :: rest => ((b :: rest).take 16) :: chunks16 ((b :: rest).drop 16)
termination_by l => l.length
decreasing_by simp; omega

/-- Little-endian 32-bit word of bytes `i*4 .. i*4+3` of a chunk
(`[f32; 4]` has its fields at offsets 0, 4, 8, 12 and f32 is stored
little-endian on the targets wgpu supports). -/
def wordAt (chunk : List Nat) (i : Nat) : Nat :=
  chunk.getD (4 * i) 0 + 2 ^ 8 * chunk.getD (4 * i + 1) 0 +
    2 ^ 16 * chunk.getD (4 * i + 2) 0 + 2 ^ 24 * chunk.getD (4 * i + 3) 0

/-- Sign bit of an f32 bit pattern. -/
def f32Sign (bits : Nat) : Nat := bits / 2 ^ 31 % 2

/-- Biased exponent field of an f32 bit pattern. -/
def f32Exp (bits : Nat) : Nat := bits / 2 ^ 23 % 2 ^ 8

/-- Mantissa field of an f32 bit pattern. -/
def f32Man (bits : Nat) : Nat := bits % 2 ^ 23

/-- Value of an f32 bit pattern as an exact rational; `none` for the
non-finite patterns (infinities and NaNs, exponent field 255). -/
def f32Val (bits : Nat) : Option ℚ :=
  if f32Exp bits = 255 then none
  else
    let sig : Nat := if f32Exp bits = 0 then f32Man bits else 2 ^ 23 + f32Man bits
    let ee : Nat := max (f32Exp bits) 1
    let mag : ℚ :=
      if 150 ≤ ee then ((sig * 2 ^ (ee - 150) : Nat) : ℚ)
      else mkRat sig (2 ^ (150 - ee))
    some (if f32Sign bits = 1 then -mag else mag)

/-- Rust saturating cast `q as u8` for a finite float value `q`:
truncation toward zero clamped to `[0, 255]`.  For a nonnegative rational,
truncation toward zero is `q.num / q.den` in integer division. -/
def asU8 (q : ℚ) : Nat :=
  if q.num < 0 then 0 else min 255 (q.num.toNat / q.den)

/-- One channel of main.rs: `(color[i] * 255.0) as u8` applied to the f32
whose bit pattern is `bits`.  The multiplication is modelled in exact
rational arithmetic (it agrees with f32 arithmetic whenever the product is
exactly representable).  A non-finite channel follows the Rust cast: `+inf`
saturates to 255, `-inf` and NaN go to 0. -/
def scaledChannel (bits : Nat) : Nat :=
  match f32Val bits with
  | some q => asU8 (mkRat (q.num * 255) q.den)
  | none => if f32Man bits = 0 ∧ f32Sign bits = 0 then 255 else 0

/-- An 8-bit RGBA pixel (`image::Rgba`). -/
structure Rgba where
  r : Nat
  g : Nat
  b : Nat
  a : Nat
deriving DecidableEq, Repr

/-- Per-chunk decode of main.rs: `<[f32; 4]>::read_from(chunk)` (which
succeeds exactly when the chunk has the full 16 bytes) followed by the four
scaled channels.  `none` models the `unwrap` panic on a short chunk. -/
def decodeRecord (chunk : List Nat) : Option Rgba :=
  if chunk.length = 16 then
    some ⟨scaledChannel (wordAt chunk 0), scaledChannel (wordAt chunk 1),
          scaledChannel (wordAt chunk 2), scaledChannel (wordAt chunk 3)⟩
  else none

/-- Sequencing of the decoding `map` of main.rs: each chunk is decoded in
order; `none` models the first `unwrap` panic aborting the program. -/
def decodeAll : List (List Nat) → Option (List Rgba)
  | [] => some []
  | c :: rest =>
    match decodeRecord c, decodeAll rest with
    | some r, some rs => some (r :: rs)
    | _, _ => none

/-- The `image_pixels` vector of main.rs: every chunk decoded and unwrapped;
`none` if any `unwrap` panics. -/
def image_pixels (bytes : List Nat) : Option (List Rgba) :=
  decodeAll (chunks16 bytes)

/-- The pixel main.rs stores at image position `(x, y)`:
`image_pixels[(y * 256 + x) as usize]`; `none` models an out-of-bounds
indexing panic (or an earlier unwrap panic). -/
def pixelAt (bytes : List Nat) (x y : Nat) : Option Rgba :=
  (image_pixels bytes).bind fun px => px[(y * 256 + x)]?

/-- Little-endian bytes of the f32 record `(1.0, 0.0, 0.0, 1.0)`
(opaque red): 1.0f32 is `0x3f800000`. -/
def redRecord : List Nat :=
  [0, 0, 128, 63, 0, 0, 0, 0, 0, 0, 0, 0, 0, 0, 128, 63]

/-- A device whose kernel writes the record `(1.0, 0.0, 0.0, 1.0)` to every
pixel of the storage buffer (zero-padding a final partial record if the
buffer size is not a multiple of 16, which never happens for the sizes
`porcodio` creates). -/
def redDev : Device Unit where
  kernelWrite := fun _ n =>
    List.flatten (List.replicate (n / 16) redRecord) ++ List.replicate (n % 16) 0
  kernelWrite_length := by
    intro _ n
    simp [redRecord, List.length_flatten]
    omega
  kernelStep := id
  mapResult := fun _ => some true

/-!
Helper lemmas about the embedding.
-/

lemma chunks16_cons (l : List Nat) (h : l ≠ []) :
    chunks16 l = l.take 16 :: chunks16 (l.drop 16) := by
  cases l with
  | nil => exact absurd rfl h
  | cons b rest => simp [chunks16]

lemma chunks16_getElem? (i : Nat) (l : List Nat) (hi : 16 * i < l.length) :
    (chunks16 l)[i]? = some ((l.drop (16 * i)).take 16) := by
  induction i generalizing l with
  | zero =>
    cases l with
    | nil => simp at hi
    | cons b rest =>
      rw [chunks16_cons _ (by simp)]
      simp
  | succ i ih =>
    cases l with
    | nil => simp at hi
    | cons b rest =>
      rw [chunks16_cons _ (by simp)]
      have h16 : 16 * i < ((b :: rest).drop 16).length := by
        simp only [List.length_drop, List.length_cons] at hi ⊢
        omega
      rw [List.getElem?_cons_succ, ih _ h16, List.drop_drop]
      have harith : 16 + 16 * i = 16 * (i + 1) := by omega
      rw [harith]

lemma chunks16_length_of_dvd (l : List Nat) (hdvd : 16 ∣ l.length) :
    (chunks16 l).length = l.length / 16 := by
  induction l using chunks16.induct with
  | case1 => simp [chunks16]
  | case2 b rest ih =>
    rw [chunks16_cons _ (by simp)]
    have hlen : 16 ∣ ((b :: rest).drop 16).length := by
      simp only [List.length_drop, List.length_cons] at hdvd ⊢
      omega
    simp only [List.length_cons, List.length_drop] at *
    rw [ih hlen]
    omega

lemma chunks16_mem_length (l : List Nat) (hdvd : 16 ∣ l.length) :
    ∀ c ∈ chunks16 l, c.length = 16 := by
  induction l using chunks16.induct with
  | case1 => simp [chunks16]
  | case2 b rest ih =>
    rw [chunks16_cons _ (by simp)]
    intro c hc
    have hlen : 16 ∣ ((b :: rest).drop 16).length := by
      simp only [List.length_drop, List.length_cons] at hdvd ⊢
      omega
    rcases List.mem_cons.mp hc with h | h
    · subst h
      simp only [List.length_take, List.length_cons] at *
      omega
    · exact ih hlen c h

lemma chunks16_flatten_replicate (n : Nat) :
    chunks16 (List.flatten (List.replicate n redRecord)) =
      List.replicate n redRecord := by
  induction n with
  | zero => simp [chunks16]
  | succ n ih =>
    have hlen16 : redRecord.length = 16 := by decide
    rw [List.replicate_succ, List.flatten_cons, chunks16_cons _ (by simp [redRecord]),
        List.take_left' hlen16, List.drop_left' hlen16, ih]

lemma decodeRecord_red : decodeRecord redRecord = some ⟨255, 0, 0, 255⟩ := by
  decide

lemma decodeAll_replicate (n : Nat) :
    decodeAll (List.replicate n redRecord) =
      some (List.replicate n (⟨255, 0, 0, 255⟩ : Rgba)) := by
  induction n with
  | zero => simp [decodeAll]
  | succ n ih =>
    rw [List.replicate_succ, List.replicate_succ]
    simp [decodeAll, decodeRecord_red, ih]

lemma decodeAll_ne_none (l : List (List Nat)) (hlen : ∀ c ∈ l, c.length = 16) :
    decodeAll l ≠ none := by
  induction l with
  | nil => simp [decodeAll]
  | cons c l ih =>
    have hc : c.length = 16 := hlen c (by simp)
    have hl : ∀ x ∈ l, x.length = 16 := fun x hx => hlen x (by simp [hx])
    rcases hm : decodeAll l with _ | xs
    · exact absurd hm (ih hl)
    · simp [decodeAll, decodeRecord, hc, hm]

lemma decodeRecord_ne_none_of_length (c : List Nat) (hc : c.length = 16) :
    decodeRecord c ≠ none := by
  simp [decodeRecord, hc]

lemma bufferSize_dvd (w h : Nat) : 16 ∣ bufferSize w h := by
  have h64 : (16 : Nat) ∣ U64 := by
    refine ⟨2 ^ 60, by norm_num [U64]⟩
  rw [bufferSize, sizeOfF32x4, mulU64, Nat.dvd_mod_iff h64]
  exact dvd_mul_left 16 (mulU64 w h)

lemma bufferSize_eq (w h : Nat) (hlt : w * h * sizeOfF32x4 < U64) :
    bufferSize w h = w * h * sizeOfF32x4 := by
  rw [sizeOfF32x4] at *
  have hwh : w * h < U64 := by
    have : w * h ≤ w * h * 16 := Nat.le_mul_of_pos_right _ (by norm_num)
    omega
  rw [bufferSize, sizeOfF32x4, mulU64, mulU64, Nat.mod_eq_of_lt hwh,
      Nat.mod_eq_of_lt hlt]

lemma porcodio_ok_bytes {σ : Type} (dev : Device σ) (s : σ) (w h : Nat)
    (bytes : List Nat) (hok : (porcodio dev s w h).1 = .ok bytes) :
    bytes = dev.kernelWrite s (bufferSize w h) := by
  rcases hm : dev.mapResult s with _ | b
  · simp [porcodio, hm] at hok
  · cases b
    · simp [porcodio, hm] at hok
    · simp [porcodio, hm] at hok
      exact hok.symm

lemma porcodio_ok_length {σ : Type} (dev : Device σ) (s : σ) (w h : Nat)
    (bytes : List Nat) (hok : (porcodio dev s w h).1 = .ok bytes) :
    bytes.length = bufferSize w h := by
  rw [porcodio_ok_bytes dev s w h bytes hok]
  exact dev.kernelWrite_length s _

lemma dispatches_porcodio {σ : Type} (dev : Device σ) (s : σ) (w h : Nat) :
    dispatches (porcodio dev s w h).2.1 = [(256, 256, 64)] := by
  rcases hm : dev.mapResult s with _ | b
  · simp [porcodio, hm, dispatches, porcodioSetup]
  · cases b <;> simp [porcodio, hm, dispatches, porcodioSetup]

lemma boundPipelines_porcodio {σ : Type} (dev : Device σ) (s : σ) (w h : Nat) :
    boundPipelines (porcodio dev s w h).2.1 = [⟨5, .gen⟩] := by
  rcases hm : dev.mapResult s with _ | b
  · simp [porcodio, hm, boundPipelines, porcodioSetup]
  · cases b <;> simp [porcodio, hm, boundPipelines, porcodioSetup]

lemma compiledShaders_porcodio {σ : Type} (dev : Device σ) (s : σ) (w h : Nat) :
    compiledShaders (porcodio dev s w h).2.1 = [.gen] := by
  rcases hm : dev.mapResult s with _ | b
  · simp [porcodio, hm, compiledShaders, porcodioSetup]
  · cases b <;> simp [porcodio, hm, compiledShaders, porcodioSetup]

lemma createdPipelines_porcodio {σ : Type} (dev : Device σ) (s : σ) (w h : Nat) :
    createdPipelines (porcodio dev s w h).2.1 = [⟨5, .gen⟩] := by
  rcases hm : dev.mapResult s with _ | b
  · simp [porcodio, hm, createdPipelines, porcodioSetup]
  · cases b <;> simp [porcodio, hm, createdPipelines, porcodioSetup]

lemma porcodioSetup_no_read_no_unmap (size : Nat) :
    ∀ e ∈ porcodioSetup size, (∀ b, e ≠ .readMapped b) ∧ e ≠ .unmap := by
  intro e he
  simp only [porcodioSetup, List.mem_cons, List.mem_singleton, List.not_mem_nil,
    or_false] at he
  rcases he with rfl | rfl | rfl | rfl | rfl | rfl | rfl | rfl | rfl | rfl | rfl |
    rfl | rfl | rfl | rfl | rfl <;> simp

/-!
Claim theorems.
-/

/-- Claim C1 (counterexample): the claim quantifies over every positive
width and height, but the size expression is u64 arithmetic: at
`width = height = 2 ^ 32` (both positive) the size computation wraps to 0,
so a successful render returns the empty byte sequence instead of
`2 ^ 32 * 2 ^ 32 * 16` bytes. -/
theorem porcodio_length_overflow_counterexample :
    (porcodio zeroKernel () (2 ^ 32) (2 ^ 32)).1 = .ok [] ∧
    ([] : List Nat).length ≠ 2 ^ 32 * 2 ^ 32 * sizeOfF32x4 := by
  constructor
  · simp [porcodio, zeroKernel]
    decide
  · norm_num [sizeOfF32x4]

/-- Claim C1 (amended): for every width > 0 and height > 0 whose size
computation `width * height * 16` does not overflow u64, the byte sequence
returned by a successful `porcodio` call has length exactly
`width * height * 16`. -/
theorem porcodio_length {σ : Type} (dev : Device σ) (s : σ) (w h : Nat)
    (hw : 0 < w) (hh : 0 < h) (hsize : w * h * sizeOfF32x4 < U64)
    (bytes : List Nat) (hok : (porcodio dev s w h).1 = .ok bytes) :
    bytes.length = w * h * sizeOfF32x4 := by
  rw [porcodio_ok_length dev s w h bytes hok, bufferSize_eq w h hsize]

/-- Witness for `porcodio_length` at width 2, height 3 on the zero-kernel
device: 96 bytes come back. -/
theorem porcodio_length_witness :
    0 < 2 ∧ 0 < 3 ∧ 2 * 3 * sizeOfF32x4 < U64 ∧
    (porcodio zeroKernel () 2 3).1 = .ok (List.replicate 96 0) ∧
    (List.replicate 96 0).length = 2 * 3 * sizeOfF32x4 :=
  ⟨by decide, by decide, by norm_num [sizeOfF32x4, U64], by decide,
   porcodio_length zeroKernel () 2 3 (by decide) (by decide)
     (by norm_num [sizeOfF32x4, U64]) (List.replicate 96 0) (by decide)⟩

/-- Claim C2 (counterexample): the workgroup counts passed to the dispatch
are the fixed constants (256, 256, 64), not derived from the resolution:
there is no per-kernel tile size for which `workgroups * tile_size`
covers every requested resolution (width `256 * tile + 1` escapes). -/
theorem dispatch_not_resolution_derived :
    ¬ ∃ tx ty : Nat, 0 < tx ∧ 0 < ty ∧
        ∀ w h : Nat, ∀ d ∈ dispatches (porcodio zeroKernel () w h).2.1,
          w ≤ d.1 * tx ∧ h ≤ d.2.1 * ty := by
  rintro ⟨tx, ty, htx, hty, hall⟩
  have h := hall (256 * tx + 1) 1 (256, 256, 64)
    (by rw [dispatches_porcodio]; simp)
  have h1 := h.1
  simp only at h1
  omega

/-- Claim C2 (amended): every render dispatches the fixed workgroup grid
(256, 256, 64) regardless of resolution; for a per-kernel tile size
`(tx, ty)` the dispatched invocations cover the resolution exactly when
width ≤ 256 * tx and height ≤ 256 * ty. -/
theorem porcodio_dispatch_fixed {σ : Type} (dev : Device σ) (s : σ)
    (w h tx ty : Nat) (hw : w ≤ 256 * tx) (hh : h ≤ 256 * ty) :
    dispatches (porcodio dev s w h).2.1 = [(256, 256, 64)] ∧
    ∀ d ∈ dispatches (porcodio dev s w h).2.1,
      w ≤ d.1 * tx ∧ h ≤ d.2.1 * ty := by
  refine ⟨dispatches_porcodio dev s w h, ?_⟩
  intro d hd
  rw [dispatches_porcodio] at hd
  simp only [List.mem_singleton] at hd
  subst hd
  exact ⟨hw, hh⟩

/-- Witness for `porcodio_dispatch_fixed` at resolution 256 × 256 with an
8 × 8 tile. -/
theorem porcodio_dispatch_fixed_witness :
    256 ≤ 256 * 8 ∧ 256 ≤ 256 * 8 ∧
    (dispatches (porcodio zeroKernel () 256 256).2.1 = [(256, 256, 64)] ∧
     ∀ d ∈ dispatches (porcodio zeroKernel () 256 256).2.1,
       256 ≤ d.1 * 8 ∧ 256 ≤ d.2.1 * 8) :=
  ⟨by norm_num, by norm_num,
   porcodio_dispatch_fixed zeroKernel () 256 256 8 8 (by norm_num) (by norm_num)⟩

/-- Claim C3 (counterexample): when the map request reports failure the
render does not fail with a distinct, caller-distinguishable `ReadbackFailed`
error value — the Rust function returns a plain `Vec<u8>` and its only
failure path is a panic with message "Could not map buffer" (`Outcome` has
no error-value constructor, so no failure value reaches the caller). -/
theorem map_failure_panics_counterexample :
    (porcodio failDev () 1 1).1 = .panic .couldNotMapBuffer ∧
    (porcodio failDev () 1 1).1.bytes? = none := by
  decide

/-- Claim C3 (amended): if the asynchronous map request completes with
failure, the render call panics with the message "Could not map buffer"
(rather than returning a distinct error value) and returns no byte data,
neither partially-copied nor zero-length. -/
theorem porcodio_map_failure {σ : Type} (dev : Device σ) (s : σ) (w h : Nat)
    (hfail : dev.mapResult s = some false) :
    (porcodio dev s w h).1 = .panic .couldNotMapBuffer ∧
    ∀ bytes, (porcodio dev s w h).1 ≠ .ok bytes := by
  simp [porcodio, hfail]

/-- Witness for `porcodio_map_failure` on the failing-map device at 1 × 1. -/
theorem porcodio_map_failure_witness :
    failDev.mapResult () = some false ∧
    ((porcodio failDev () 1 1).1 = .panic .couldNotMapBuffer ∧
     ∀ bytes, (porcodio failDev () 1 1).1 ≠ .ok bytes) :=
  ⟨rfl, porcodio_map_failure failDev () 1 1 rfl⟩

/-- Claim C4 (counterexample): a zero width is not rejected: no precondition
check exists, device work is still submitted, and the call returns an empty
byte sequence instead of failing fast. -/
theorem zero_width_not_rejected :
    (porcodio zeroKernel () 0 256).1 = .ok [] ∧
    Ev.submit ∈ (porcodio zeroKernel () 0 256).2.1 := by
  decide

/-- Claim C4 (amended): the render operation performs no validation of its
dimensions: width 0 (and symmetrically height 0) proceeds through the whole
pipeline — device work is submitted — and returns an empty byte sequence,
and an overflowing size computation (for instance 2 ^ 32 × 2 ^ 32) wraps
modulo 2 ^ 64 to a zero buffer size instead of being rejected. -/
theorem porcodio_no_size_validation {σ : Type} (dev : Device σ) (s : σ)
    (h : Nat) (hmap : dev.mapResult s = some true) :
    (porcodio dev s 0 h).1 = .ok [] ∧
    Ev.submit ∈ (porcodio dev s 0 h).2.1 ∧
    bufferSize (2 ^ 32) (2 ^ 32) = 0 := by
  have hsz : bufferSize 0 h = 0 := by simp [bufferSize, mulU64]
  have hbytes : dev.kernelWrite s 0 = [] :=
    List.length_eq_zero.mp (dev.kernelWrite_length s 0)
  refine ⟨?_, ?_, by decide⟩
  · simp [porcodio, hmap, hsz, hbytes]
  · simp [porcodio, hmap, porcodioSetup]

/-- Witness for `porcodio_no_size_validation` on the zero-kernel device. -/
theorem porcodio_no_size_validation_witness :
    zeroKernel.mapResult () = some true ∧
    ((porcodio zeroKernel () 0 256).1 = .ok [] ∧
     Ev.submit ∈ (porcodio zeroKernel () 0 256).2.1 ∧
     bufferSize (2 ^ 32) (2 ^ 32) = 0) :=
  ⟨rfl, porcodio_no_size_validation zeroKernel () 256 rfl⟩

/-- Claim C5: in every successful render the mapped bytes are read only
after the map-success signal (`readMapped` follows `mapSignal true` and no
event before it reads or unmaps), the full byte view (length = buffer size)
is copied into the owned sequence that is returned, the `unmap` call is the
last device call before returning, and nothing is read after `unmap`. -/
theorem porcodio_read_discipline {σ : Type} (dev : Device σ) (s : σ)
    (w h : Nat) (hmap : dev.mapResult s = some true) :
    ∃ bytes,
      (porcodio dev s w h).1 = .ok bytes ∧
      bytes.length = bufferSize w h ∧
      (porcodio dev s w h).2.1 =
        porcodioSetup (bufferSize w h) ++
          [.mapSignal true, .readMapped bytes, .unmap] ∧
      ∀ e ∈ porcodioSetup (bufferSize w h),
        (∀ b, e ≠ .readMapped b) ∧ e ≠ .unmap := by
  refine ⟨dev.kernelWrite s (bufferSize w h), ?_, dev.kernelWrite_length s _,
    ?_, porcodioSetup_no_read_no_unmap _⟩
  · simp [porcodio, hmap]
  · simp [porcodio, hmap]

/-- Witness for `porcodio_read_discipline` on the zero-kernel device at
1 × 1. -/
theorem porcodio_read_discipline_witness :
    zeroKernel.mapResult () = some true ∧
    ∃ bytes,
      (porcodio zeroKernel () 1 1).1 = .ok bytes ∧
      bytes.length = bufferSize 1 1 ∧
      (porcodio zeroKernel () 1 1).2.1 =
        porcodioSetup (bufferSize 1 1) ++
          [.mapSignal true, .readMapped bytes, .unmap] ∧
      ∀ e ∈ porcodioSetup (bufferSize 1 1),
        (∀ b, e ≠ .readMapped b) ∧ e ≠ .unmap :=
  ⟨rfl, porcodio_read_discipline zeroKernel () 1 1 rfl⟩

/-- Claim C6: every render binds and dispatches only a ray-generation
pipeline (exactly one `set_pipeline`, of stage `gen`, and one dispatch),
while the closest-hit, any-hit, miss and intersection pipelines are created
at construction but never bound or dispatched by the render operation. -/
theorem porcodio_single_stage {σ : Type} (dev : Device σ) (s : σ) (w h : Nat) :
    boundPipelines (porcodio dev s w h).2.1 = [⟨5, .gen⟩] ∧
    (⟨5, .gen⟩ : Pipeline).stage = .gen ∧
    dispatches (porcodio dev s w h).2.1 = [(256, 256, 64)] ∧
    createdPipelines newRenderer.2 =
      [newRenderer.1.ray_gen_pipeline, newRenderer.1.ray_chit_pipeline,
       newRenderer.1.ray_ahit_pipeline, newRenderer.1.ray_miss_pipeline,
       newRenderer.1.ray_intersect_pipeline] ∧
    newRenderer.1.ray_chit_pipeline ∉ boundPipelines (porcodio dev s w h).2.1 ∧
    newRenderer.1.ray_ahit_pipeline ∉ boundPipelines (porcodio dev s w h).2.1 ∧
    newRenderer.1.ray_miss_pipeline ∉ boundPipelines (porcodio dev s w h).2.1 ∧
    newRenderer.1.ray_intersect_pipeline ∉
      boundPipelines (porcodio dev s w h).2.1 := by
  refine ⟨boundPipelines_porcodio dev s w h, rfl, dispatches_porcodio dev s w h,
    by decide, ?_, ?_, ?_, ?_⟩ <;>
    rw [boundPipelines_porcodio] <;> decide

/-- Claim C7 (counterexample): a render call is not free of shader
compilation and pipeline creation: `porcodio` compiles a shader module and
creates a compute pipeline on every call. -/
theorem porcodio_recompiles_counterexample :
    compiledShaders (porcodio zeroKernel () 1 1).2.1 ≠ [] ∧
    createdPipelines (porcodio zeroKernel () 1 1).2.1 ≠ [] := by
  decide

/-- Claim C7 (amended): the five-stage pipeline set is built once at
construction, but every render call additionally compiles the
ray-generation shader module again and creates one fresh compute pipeline —
distinct from all construction-time pipelines — and uses that fresh
pipeline instead of reusing the constructed set. -/
theorem porcodio_recompiles {σ : Type} (dev : Device σ) (s : σ) (w h : Nat) :
    compiledShaders newRenderer.2 = [.gen, .chit, .ahit, .miss, .intersect] ∧
    createdPipelines newRenderer.2 =
      [⟨0, .gen⟩, ⟨1, .chit⟩, ⟨2, .ahit⟩, ⟨3, .miss⟩, ⟨4, .intersect⟩] ∧
    compiledShaders (porcodio dev s w h).2.1 = [.gen] ∧
    createdPipelines (porcodio dev s w h).2.1 = [⟨5, .gen⟩] ∧
    (⟨5, .gen⟩ : Pipeline) ∉ createdPipelines newRenderer.2 ∧
    boundPipelines (porcodio dev s w h).2.1 = [⟨5, .gen⟩] := by
  exact ⟨by decide, by decide, compiledShaders_porcodio dev s w h,
    createdPipelines_porcodio dev s w h, by decide,
    boundPipelines_porcodio dev s w h⟩

/-- Unfolding of `pixelAt` through a known `image_pixels` value. -/
lemma pixelAt_eq (bytes : List Nat) (px : List Rgba) (x y : Nat)
    (h : image_pixels bytes = some px) :
    pixelAt bytes x y = px[(y * 256 + x)]? := by
  unfold pixelAt
  rw [h, Option.some_bind]

/-- The bytes a 256 × 256 render produces under the all-red kernel: 65536
copies of the 16-byte record for (1.0, 0.0, 0.0, 1.0). -/
lemma redDev_write :
    redDev.kernelWrite () (bufferSize 256 256) =
      List.flatten (List.replicate 65536 redRecord) := by
  have h : bufferSize 256 256 = 1048576 := by decide
  show List.flatten (List.replicate (bufferSize 256 256 / 16) redRecord) ++
      List.replicate (bufferSize 256 256 % 16) 0 =
    List.flatten (List.replicate 65536 redRecord)
  rw [h]
  norm_num

/-- Claim C8: the decoder maps readback bytes row-major — at the program's
dimension 256, the record decoded for pixel (x, y) is the 16-byte slice at
byte offset (y * 256 + x) * 16 — and a 256 × 256 render of a kernel writing
(1.0, 0.0, 0.0, 1.0) to every pixel decodes every pixel, after 8-bit
scaling, to (255, 0, 0, 255). -/
theorem porcodio_red_row_major (x y : Nat) (hx : x < 256) (hy : y < 256) :
    ∃ bytes,
      (porcodio redDev () 256 256).1 = .ok bytes ∧
      pixelAt bytes x y = some ⟨255, 0, 0, 255⟩ ∧
      (chunks16 bytes)[(y * 256 + x)]? =
        some ((bytes.drop ((y * 256 + x) * 16)).take 16) ∧
      decodeRecord ((bytes.drop ((y * 256 + x) * 16)).take 16) =
        some ⟨255, 0, 0, 255⟩ := by
  set bytes := List.flatten (List.replicate 65536 redRecord) with hbytes
  have hidx : y * 256 + x < 65536 := by omega
  have hok : (porcodio redDev () 256 256).1 = .ok bytes := by
    have : (porcodio redDev () 256 256).1 =
        .ok (redDev.kernelWrite () (bufferSize 256 256)) := by
      simp [porcodio, redDev]
    rw [this, redDev_write]
  have hlen : bytes.length = 1048576 := by
    have h1 := redDev.kernelWrite_length () (bufferSize 256 256)
    rw [redDev_write] at h1
    rw [hbytes, h1]
    decide
  have hchunks : chunks16 bytes = List.replicate 65536 redRecord :=
    chunks16_flatten_replicate 65536
  have hoffsets : (chunks16 bytes)[(y * 256 + x)]? =
      some ((bytes.drop ((y * 256 + x) * 16)).take 16) := by
    rw [Nat.mul_comm (y * 256 + x) 16]
    exact chunks16_getElem? (y * 256 + x) bytes (by omega)
  have hrep : (chunks16 bytes)[(y * 256 + x)]? = some redRecord := by
    rw [hchunks, List.getElem?_replicate, if_pos hidx]
  have hchunk : (bytes.drop ((y * 256 + x) * 16)).take 16 = redRecord :=
    Option.some_inj.mp (hoffsets.symm.trans hrep)
  refine ⟨bytes, hok, ?_, hoffsets, by rw [hchunk]; exact decodeRecord_red⟩
  have hpix : image_pixels bytes =
      some (List.replicate 65536 (⟨255, 0, 0, 255⟩ : Rgba)) := by
    show decodeAll (chunks16 bytes) = _
    rw [hchunks, decodeAll_replicate]
  rw [pixelAt_eq _ _ x y hpix, List.getElem?_replicate, if_pos hidx]

/-- Witness for `porcodio_red_row_major` at pixel (0, 0). -/
theorem porcodio_red_row_major_witness :
    0 < 256 ∧
    ∃ bytes,
      (porcodio redDev () 256 256).1 = .ok bytes ∧
      pixelAt bytes 0 0 = some ⟨255, 0, 0, 255⟩ ∧
      (chunks16 bytes)[(0 * 256 + 0)]? =
        some ((bytes.drop ((0 * 256 + 0) * 16)).take 16) ∧
      decodeRecord ((bytes.drop ((0 * 256 + 0) * 16)).take 16) =
        some ⟨255, 0, 0, 255⟩ :=
  ⟨by decide, porcodio_red_row_major 0 0 (by decide) (by decide)⟩

/-- Claim C9: given a deterministic kernel (the storage-buffer contents it
produces and the map outcome do not depend on the device state consumed by
the first call), two sequential `porcodio` invocations with identical width
and height produce identical outcomes, hence byte-identical output. -/
theorem porcodio_deterministic {σ : Type} (dev : Device σ) (s : σ) (w h : Nat)
    (hkernel : dev.kernelWrite (dev.kernelStep s) = dev.kernelWrite s)
    (hmap : dev.mapResult (dev.kernelStep s) = dev.mapResult s) :
    (porcodio dev ((porcodio dev s w h).2.2) w h).1 =
      (porcodio dev s w h).1 := by
  have hstate : (porcodio dev s w h).2.2 = dev.kernelStep s := by
    rcases hm : dev.mapResult s with _ | b
    · simp [porcodio, hm]
    · cases b <;> simp [porcodio, hm]
  rw [hstate]
  rcases hm : dev.mapResult s with _ | b
  · have hm2 : dev.mapResult (dev.kernelStep s) = none := hmap.trans hm
    simp [porcodio, hm, hm2]
  · cases b
    · have hm2 : dev.mapResult (dev.kernelStep s) = some false := hmap.trans hm
      simp [porcodio, hm, hm2]
    · have hm2 : dev.mapResult (dev.kernelStep s) = some true := hmap.trans hm
      simp [porcodio, hm, hm2, hkernel]

/-- Witness for `porcodio_deterministic` on the stateless zero-kernel
device at 2 × 2. -/
theorem porcodio_deterministic_witness :
    zeroKernel.kernelWrite (zeroKernel.kernelStep ()) =
      zeroKernel.kernelWrite () ∧
    zeroKernel.mapResult (zeroKernel.kernelStep ()) =
      zeroKernel.mapResult () ∧
    (porcodio zeroKernel ((porcodio zeroKernel () 2 2).2.2) 2 2).1 =
      (porcodio zeroKernel () 2 2).1 :=
  ⟨rfl, rfl, porcodio_deterministic zeroKernel () 2 2 rfl rfl⟩

/-- Claim C10 (counterexample): when `width * height * 16` overflows u64
(width = height = 2 ^ 32, both positive), the returned byte sequence is
empty, so splitting it into 16-byte chunks does not yield
`width * height` chunks. -/
theorem chunk_count_overflow_counterexample :
    (porcodio zeroKernel () (2 ^ 32) (2 ^ 32)).1 = .ok [] ∧
    (chunks16 []).length ≠ 2 ^ 32 * 2 ^ 32 := by
  constructor
  · simp [porcodio, zeroKernel]
    decide
  · have h : chunks16 [] = [] := by simp [chunks16]
    rw [h]
    norm_num

/-- Claim C10 (amended): the byte sequence of every successful render has
length divisible by 16, every 16-byte chunk is complete so the per-chunk
`read_from` parse (and its `unwrap`) never fails, and — provided
`width * height * 16` does not overflow u64 — splitting yields exactly
`width * height` chunks. -/
theorem porcodio_chunks {σ : Type} (dev : Device σ) (s : σ) (w h : Nat)
    (bytes : List Nat) (hok : (porcodio dev s w h).1 = .ok bytes) :
    16 ∣ bytes.length ∧
    (∀ c ∈ chunks16 bytes, c.length = 16 ∧ decodeRecord c ≠ none) ∧
    image_pixels bytes ≠ none ∧
    (w * h * sizeOfF32x4 < U64 → (chunks16 bytes).length = w * h) := by
  have hlen := porcodio_ok_length dev s w h bytes hok
  have hdvd : 16 ∣ bytes.length := hlen ▸ bufferSize_dvd w h
  refine ⟨hdvd, ?_, ?_, ?_⟩
  · intro c hc
    have hc16 := chunks16_mem_length bytes hdvd c hc
    exact ⟨hc16, decodeRecord_ne_none_of_length c hc16⟩
  · show decodeAll (chunks16 bytes) ≠ none
    exact decodeAll_ne_none _ (chunks16_mem_length bytes hdvd)
  · intro hov
    rw [chunks16_length_of_dvd bytes hdvd, hlen, bufferSize_eq w h hov,
        sizeOfF32x4, Nat.mul_div_cancel _ (by norm_num)]

/-- Witness for `porcodio_chunks` at width 2, height 3 on the zero-kernel
device. -/
theorem porcodio_chunks_witness :
    (porcodio zeroKernel () 2 3).1 = .ok (List.replicate 96 0) ∧
    (16 ∣ (List.replicate 96 0 : List Nat).length ∧
     (∀ c ∈ chunks16 (List.replicate 96 0), c.length = 16 ∧
        decodeRecord c ≠ none) ∧
     image_pixels (List.replicate 96 0) ≠ none ∧
     (2 * 3 * sizeOfF32x4 < U64 →
        (chunks16 (List.replicate 96 0)).length = 2 * 3)) :=
  ⟨by decide,
   porcodio_chunks zeroKernel () 2 3 (List.replicate 96 0) (by decide)⟩

end Raytracing
